import Mathlib

/-!
# Fork / exec / wait: a shallow embedding of `execute_command` (executor.c)

`execute_command` talks to the operating system three times (`fork`, then
`execvp` in the child or `waitpid` in the parent).  The embedding passes the
answers of the operating system in as an explicit record (`Env`) and returns
the ordered list of system-level events the call performed together with the
way the call ended in the process that ran it.
-/

namespace Executor

/-! ## Data model -/

/-- An observable action of one call, in program order. -/
inductive Event where
  | fork : Event
  | execvp (command : String) (args : List String) : Event
  | waitpid (pid : Int) (options : Int) : Event
  | perror (msg : String) : Event
  | exit (code : Int) : Event
  deriving DecidableEq, Repr

/-- How the call ended in the process that executed it. -/
inductive Outcome where
  /-- The statement `return v;` was reached: control goes back to the caller. -/
  | returned (v : Int) : Outcome
  /-- The call `exit(code)` was made: the process terminated inside the call. -/
  | exited (code : Int) : Outcome
  /-- The call to `execvp` succeeded: the process now runs the target program. -/
  | replaced : Outcome
  deriving DecidableEq, Repr

/-- Answers of the operating system to the calls made by `execute_command`
in one process.  `forkRet` is the value `fork()` returns in this process,
`execRet` is `none` when `execvp` succeeds (it then does not return) and
`some r` when it returns `r`, `waitRet` is the value returned by `waitpid`
and `status` the word it stores through its second argument. -/
structure Env where
  forkRet : Int
  execRet : Option Int
  waitRet : Int
  status : Int
  deriving DecidableEq, Repr

/-- Bit pattern of a C `int` (32-bit two's complement). -/
def bits32 (x : Int) : Nat := (x % 4294967296).toNat

/-- Modelled from the spec: `WIFEXITED` is a macro of `<sys/wait.h>`, reached
through `executor.h`, which is not part of the sources.  A status denotes a
normal exit when its low seven bits are zero (`((status) & 0x7f) == 0`). -/
def WIFEXITED (status : Int) : Bool := (bits32 status &&& 0x7f) == 0

/-- Modelled from the spec: `WEXITSTATUS` is a macro of `<sys/wait.h>`,
reached through `executor.h`, which is not part of the sources.  The exit
code is the eight-bit field `(status >> 8) & 0xff`. -/
def WEXITSTATUS (status : Int) : Int := (((bits32 status >>> 8) &&& 0xff : Nat) : Int)

/-! ## The function -/

/-- Embedding of `int execute_command(char *command, char **args)`. -/
def execute_command (command : String) (args : List String) (env : Env) :
    List Event × Outcome :=
  let pid := env.forkRet
  if pid < 0 then
    ([Event.fork, Event.perror "System Error: fork failed"], Outcome.returned (-1))
  else if pid = 0 then
    match env.execRet with
    | none => ([Event.fork, Event.execvp command args], Outcome.replaced)
    | some r =>
      if r = -1 then
        ([Event.fork, Event.execvp command args, Event.perror "Execution Error",
          Event.exit 1], Outcome.exited 1)
      else
        ([Event.fork, Event.execvp command args], Outcome.returned (-1))
  else
    if env.waitRet = -1 then
      ([Event.fork, Event.waitpid pid 0, Event.perror "System Error: waitpid failed"],
        Outcome.returned (-1))
    else if WIFEXITED env.status then
      ([Event.fork, Event.waitpid pid 0], Outcome.returned (WEXITSTATUS env.status))
    else
      ([Event.fork, Event.waitpid pid 0], Outcome.returned (-1))

/-! ## The two processes of one call

The parent only sees its child through the status word stored by `waitpid`.
The definitions below tie the two sides of one call together: the child runs
the same function with `fork() = 0`, and the way the child ends determines the
status word that the parent's `waitpid` reports. -/

/-- How a running child process comes to an end. -/
inductive ChildEnd where
  /-- The process called `exit(code)` (or returned `code` from `main`). -/
  | exits (code : Int) : ChildEnd
  /-- The process was terminated by signal `sig`, possibly dumping core. -/
  | killed (sig : Nat) (core : Bool) : ChildEnd
  deriving DecidableEq, Repr

/-- Modelled from the spec: the operating system's encoding of a status word
(`__W_EXITCODE` of `<sys/wait.h>`), which is not repository code.  It is the
inverse of `WIFEXITED` and `WEXITSTATUS`: exit code in bits 8 to 15,
terminating signal in the low seven bits. -/
def W_EXITCODE (ret sig : Nat) : Nat := (ret <<< 8) ||| sig

/-- Modelled from the spec: the operating system's side of `waitpid`, which
is not repository code: the status word stored for a child that ended as
described.  A normal exit carries an eight-bit status code (only the low
eight bits of the exit code are kept); termination by a signal is reported in
the low seven bits, the core flag in bit 7. -/
def wait_status : ChildEnd → Int
  | ChildEnd.exits code => ((W_EXITCODE (bits32 code &&& 0xff) 0 : Nat) : Int)
  | ChildEnd.killed sig core =>
      ((W_EXITCODE 0 ((sig &&& 0x7f) ||| (if core then 0x80 else 0)) : Nat) : Int)

/-- One complete call seen from both processes: the value `fork()` returns in
the parent, whether `execvp` fails in the child (it then returns -1; when it
succeeds it does not return), the way the target program ends once it runs,
and the value `waitpid` returns in the parent. -/
structure Run where
  forkRet : Int
  execFails : Bool
  target : ChildEnd
  waitRet : Int
  deriving DecidableEq, Repr

/-- The call as executed by the child (the process in which `fork()` is 0). -/
def child_side (command : String) (args : List String) (r : Run) :
    List Event × Outcome :=
  execute_command command args ⟨0, if r.execFails then some (-1) else none, 0, 0⟩

/-- The way the child process ends.  A child that returned from the call runs
on in the caller's code, which is outside this development (`none`). -/
def child_end (command : String) (args : List String) (r : Run) : Option ChildEnd :=
  match (child_side command args r).2 with
  | Outcome.exited code => some (ChildEnd.exits code)
  | Outcome.replaced => some r.target
  | Outcome.returned _ => none

/-- The call as executed by the parent.  When `fork` failed there is no child;
otherwise `waitpid` reports the status word of the child's end. -/
def parent_side (command : String) (args : List String) (r : Run) :
    Option (List Event × Outcome) :=
  if r.forkRet < 0 then
    some (execute_command command args ⟨r.forkRet, none, 0, 0⟩)
  else if r.forkRet = 0 then
    none
  else
    match child_end command args r with
    | none => none
    | some e => some (execute_command command args ⟨r.forkRet, none, r.waitRet, wait_status e⟩)

/-- The value the parent's call returns to its caller, if it returns. -/
def parent_result (command : String) (args : List String) (r : Run) : Option Int :=
  match parent_side command args r with
  | some (_, Outcome.returned v) => some v
  | _ => none

/-! ## Observations on the event list -/

/-- Number of process-creation attempts among the events. -/
def fork_count (t : List Event) : Nat := t.count Event.fork

/-- The `waitpid` calls among the events, in order. -/
def waitpid_calls : List Event → List (Int × Int)
  | [] => []
  | Event.waitpid pid options :: t => (pid, options) :: waitpid_calls t
  | _ :: t => waitpid_calls t

/-- The `execvp` calls among the events, in order. -/
def execvp_calls : List Event → List (String × List String)
  | [] => []
  | Event.execvp command args :: t => (command, args) :: execvp_calls t
  | _ :: t => execvp_calls t

/-- The messages handed to `perror`, in order: what the process writes to
standard error. -/
def stderr_messages : List Event → List String
  | [] => []
  | Event.perror msg :: t => msg :: stderr_messages t
  | _ :: t => stderr_messages t

/-! ## The outcomes named by the specification -/

/-- The three outcomes a caller is to tell apart. -/
inductive Category where
  | systemError : Category
  | commandFailed : Category
  | launchFailure : Category
  deriving DecidableEq, Repr

/-- Classification of a complete call in the words of the specification:
"system error" when fork failed or waitpid failed; otherwise "command could
not be launched" when exec failed in the child, and "command ran but failed"
when the target program ran and exited with a non-zero code.  Every other
call (success, termination by a signal) is in none of the three. -/
def category (r : Run) : Option Category :=
  if r.forkRet < 0 then some Category.systemError
  else if r.forkRet = 0 then none
  else if r.waitRet = -1 then some Category.systemError
  else if r.execFails then some Category.launchFailure
  else
    match r.target with
    | ChildEnd.exits code => if code % 256 ≠ 0 then some Category.commandFailed else none
    | ChildEnd.killed _ _ => none

theorem and_127 (n : Nat) : n &&& 0x7f = n % 128 := by
  have := Nat.and_pow_two_sub_one_eq_mod n 7
  simpa using this

theorem and_255 (n : Nat) : n &&& 0xff = n % 256 := by
  have := Nat.and_pow_two_sub_one_eq_mod n 8
  simpa using this

theorem shr_8 (n : Nat) : n >>> 8 = n / 256 := by
  simp [Nat.shiftRight_eq_div_pow]

theorem shl_8 (n : Nat) : n <<< 8 = n * 256 := by
  simp [Nat.shiftLeft_eq]

/-! ## The status word -/

theorem WIFEXITED_iff (s : Int) : WIFEXITED s = true ↔ bits32 s % 128 = 0 := by
  simp [WIFEXITED, and_127]

theorem WEXITSTATUS_eq (s : Int) : WEXITSTATUS s = ((bits32 s / 256 % 256 : Nat) : Int) := by
  simp [WEXITSTATUS, and_255, shr_8]

/-- The form `((status) & 0xff00) >> 8` of the C library computes the same field. -/
theorem WEXITSTATUS_eq_mask_then_shift (s : Int) :
    WEXITSTATUS s = (((bits32 s &&& 0xff00) >>> 8 : Nat) : Int) := by
  unfold WEXITSTATUS
  congr 1
  apply Nat.eq_of_testBit_eq
  intro i
  have h : Nat.testBit 65280 (8 + i) = Nat.testBit 255 i := by
    have e : (65280 : Nat) = 255 <<< 8 := rfl
    rw [e, Nat.testBit_shiftLeft]
    simp
  simp [Nat.testBit_and, Nat.testBit_shiftRight, h]

theorem WEXITSTATUS_nonneg (s : Int) : 0 ≤ WEXITSTATUS s := by
  rw [WEXITSTATUS_eq]; omega

theorem WEXITSTATUS_le (s : Int) : WEXITSTATUS s ≤ 255 := by
  rw [WEXITSTATUS_eq]; omega

theorem WEXITSTATUS_ne_neg_one (s : Int) : WEXITSTATUS s ≠ -1 := by
  have := WEXITSTATUS_nonneg s
  omega

theorem wait_status_exits_eq (c : Int) :
    wait_status (ChildEnd.exits c) = (c % 256) * 256 := by
  simp only [wait_status, W_EXITCODE, and_255, shl_8, Nat.or_zero, bits32]
  omega

theorem bits32_wait_status_exits (c : Int) :
    bits32 (wait_status (ChildEnd.exits c)) = (c % 256).toNat * 256 := by
  rw [wait_status_exits_eq]
  unfold bits32
  omega

theorem WIFEXITED_wait_status_exits (c : Int) :
    WIFEXITED (wait_status (ChildEnd.exits c)) = true := by
  rw [WIFEXITED_iff, bits32_wait_status_exits]
  omega

theorem WEXITSTATUS_wait_status_exits (c : Int) :
    WEXITSTATUS (wait_status (ChildEnd.exits c)) = c % 256 := by
  rw [WEXITSTATUS_eq, bits32_wait_status_exits]
  omega

theorem WIFEXITED_wait_status_killed (sig : Nat) (core : Bool)
    (h1 : 1 ≤ sig) (h2 : sig ≤ 127) :
    WIFEXITED (wait_status (ChildEnd.killed sig core)) = false := by
  have hb : bits32 (wait_status (ChildEnd.killed sig core)) = sig + (if core then 128 else 0) := by
    simp only [wait_status, W_EXITCODE, and_127, shl_8, bits32]
    have hs : sig % 128 = sig := by omega
    rw [hs]
    interval_cases sig <;> cases core <;> rfl
  cases h : WIFEXITED (wait_status (ChildEnd.killed sig core))
  · rfl
  · rw [WIFEXITED_iff, hb] at h
    cases core <;> simp at h <;> omega

/-! ## The paths through `execute_command` -/

theorem execute_command_fork_failed (command : String) (args : List String) (env : Env)
    (h : env.forkRet < 0) :
    execute_command command args env =
      ([Event.fork, Event.perror "System Error: fork failed"], Outcome.returned (-1)) := by
  simp [execute_command, h]

theorem execute_command_exec_ok (command : String) (args : List String) (env : Env)
    (h : env.forkRet = 0) (he : env.execRet = none) :
    execute_command command args env =
      ([Event.fork, Event.execvp command args], Outcome.replaced) := by
  simp [execute_command, h, he]

theorem execute_command_exec_failed (command : String) (args : List String) (env : Env)
    (h : env.forkRet = 0) (he : env.execRet = some (-1)) :
    execute_command command args env =
      ([Event.fork, Event.execvp command args, Event.perror "Execution Error",
        Event.exit 1], Outcome.exited 1) := by
  simp [execute_command, h, he]

theorem execute_command_wait_failed (command : String) (args : List String) (env : Env)
    (h : 0 < env.forkRet) (hw : env.waitRet = -1) :
    execute_command command args env =
      ([Event.fork, Event.waitpid env.forkRet 0,
        Event.perror "System Error: waitpid failed"], Outcome.returned (-1)) := by
  have h1 : ¬ env.forkRet < 0 := by omega
  have h2 : env.forkRet ≠ 0 := by omega
  simp [execute_command, h1, h2, hw]

theorem execute_command_normal_exit (command : String) (args : List String) (env : Env)
    (h : 0 < env.forkRet) (hw : env.waitRet ≠ -1) (hs : WIFEXITED env.status = true) :
    execute_command command args env =
      ([Event.fork, Event.waitpid env.forkRet 0],
        Outcome.returned (WEXITSTATUS env.status)) := by
  have h1 : ¬ env.forkRet < 0 := by omega
  have h2 : env.forkRet ≠ 0 := by omega
  simp [execute_command, h1, h2, hw, hs]

theorem execute_command_abnormal (command : String) (args : List String) (env : Env)
    (h : 0 < env.forkRet) (hw : env.waitRet ≠ -1) (hs : WIFEXITED env.status = false) :
    execute_command command args env =
      ([Event.fork, Event.waitpid env.forkRet 0], Outcome.returned (-1)) := by
  have h1 : ¬ env.forkRet < 0 := by omega
  have h2 : env.forkRet ≠ 0 := by omega
  simp [execute_command, h1, h2, hw, hs]

/-! ## Return value in the parent -/

theorem parent_returns_exit_code (command : String) (args : List String)
    (env : Env) (N : Int) (hfork : 0 < env.forkRet) (hwait : env.waitRet ≠ -1)
    (h0 : 0 ≤ N) (h255 : N ≤ 255)
    (hstatus : env.status = wait_status (ChildEnd.exits N)) :
    (execute_command command args env).2 = Outcome.returned N := by
  have hs : WIFEXITED env.status = true := by
    rw [hstatus]; exact WIFEXITED_wait_status_exits N
  have hc : WEXITSTATUS env.status = N := by
    rw [hstatus, WEXITSTATUS_wait_status_exits]; omega
  rw [execute_command_normal_exit command args env hfork hwait hs, hc]

/-- C1: when fork succeeds, waitpid succeeds and the child exited normally
with exit code N (0 ≤ N ≤ 255), the parent's call returns exactly N; in
particular a child that exits 0 yields 0 and a child that exits 1 yields 1. -/
theorem normal_exit_returns_exit_code (command : String) (args : List String)
    (env : Env) (hfork : 0 < env.forkRet) (hwait : env.waitRet ≠ -1) :
    (∀ N : Int, 0 ≤ N → N ≤ 255 → env.status = wait_status (ChildEnd.exits N) →
      (execute_command command args env).2 = Outcome.returned N) ∧
    (env.status = wait_status (ChildEnd.exits 0) →
      (execute_command command args env).2 = Outcome.returned 0) ∧
    (env.status = wait_status (ChildEnd.exits 1) →
      (execute_command command args env).2 = Outcome.returned 1) := by
  have key : ∀ N : Int, 0 ≤ N → N ≤ 255 → env.status = wait_status (ChildEnd.exits N) →
      (execute_command command args env).2 = Outcome.returned N := by
    intro N h0 h255 hstatus
    exact parent_returns_exit_code command args env N hfork hwait h0 h255 hstatus
  exact ⟨key, key 0 (by decide) (by decide), key 1 (by decide) (by decide)⟩

theorem normal_exit_returns_exit_code_witness :
    (execute_command "false" ["false"] ⟨4242, none, 4242, 256⟩).2 = Outcome.returned 1 ∧
    (execute_command "true" ["true"] ⟨4242, none, 4242, 0⟩).2 = Outcome.returned 0 ∧
    (execute_command "sh" ["sh", "-c", "exit 7"] ⟨4242, none, 4242, 1792⟩).2 =
      Outcome.returned 7 :=
  ⟨(normal_exit_returns_exit_code "false" ["false"] ⟨4242, none, 4242, 256⟩
      (by decide) (by decide)).2.2 (by decide),
   (normal_exit_returns_exit_code "true" ["true"] ⟨4242, none, 4242, 0⟩
      (by decide) (by decide)).2.1 (by decide),
   (normal_exit_returns_exit_code "sh" ["sh", "-c", "exit 7"] ⟨4242, none, 4242, 1792⟩
      (by decide) (by decide)).1 7 (by decide) (by decide) (by decide)⟩

/-- C2: for every wait status that does not denote a normal exit (the child
was terminated by a signal), the parent's call returns -1, and that result
differs from the result of every normal exit with a code in 1..255. -/
theorem abnormal_termination_returns_sentinel (command : String) (args : List String)
    (env : Env)
    (hfork : 0 < env.forkRet) (hwait : env.waitRet ≠ -1)
    (habn : WIFEXITED env.status = false) :
    (execute_command command args env).2 = Outcome.returned (-1) ∧
    ∀ (env1 : Env) (N : Int), 0 < env1.forkRet → env1.waitRet ≠ -1 →
      1 ≤ N → N ≤ 255 → env1.status = wait_status (ChildEnd.exits N) →
      (execute_command command args env1).2 ≠ (execute_command command args env).2 := by
  have hr : (execute_command command args env).2 = Outcome.returned (-1) := by
    rw [execute_command_abnormal command args env hfork hwait habn]
  refine ⟨hr, ?_⟩
  intro env1 N hf1 hw1 hN1 hN2 hst
  have h1 := parent_returns_exit_code command args env1 N hf1 hw1 (by omega) hN2 hst
  rw [h1, hr]
  intro hcon
  injection hcon with hcon
  omega

theorem abnormal_termination_returns_sentinel_witness :
    (execute_command "sleep" ["sleep", "100"] ⟨4242, none, 4242, 9⟩).2 =
      Outcome.returned (-1) ∧
    (execute_command "sleep" ["sleep", "100"] ⟨4243, none, 4243, 256⟩).2 ≠
      (execute_command "sleep" ["sleep", "100"] ⟨4242, none, 4242, 9⟩).2 :=
  ⟨(abnormal_termination_returns_sentinel "sleep" ["sleep", "100"] ⟨4242, none, 4242, 9⟩
      (by decide) (by decide) (by decide)).1,
   (abnormal_termination_returns_sentinel "sleep" ["sleep", "100"] ⟨4242, none, 4242, 9⟩
      (by decide) (by decide) (by decide)).2 ⟨4243, none, 4243, 256⟩ 1
      (by decide) (by decide) (by decide) (by decide) (by decide)⟩

/-- C5: in the parent the call returns -1 exactly when fork failed, waitpid
failed, or the child did not exit normally; a child that exits normally never
makes the call return -1. -/
theorem minus_one_iff_failure_or_abnormal (command : String) (args : List String)
    (env : Env) (hparent : env.forkRet ≠ 0) :
    ((execute_command command args env).2 = Outcome.returned (-1) ↔
      (env.forkRet < 0 ∨ env.waitRet = -1 ∨ WIFEXITED env.status = false)) ∧
    (0 < env.forkRet → env.waitRet ≠ -1 → WIFEXITED env.status = true →
      (execute_command command args env).2 ≠ Outcome.returned (-1)) := by
  have hnormal : 0 < env.forkRet → env.waitRet ≠ -1 → WIFEXITED env.status = true →
      (execute_command command args env).2 ≠ Outcome.returned (-1) := by
    intro hf hw hs
    rw [execute_command_normal_exit command args env hf hw hs]
    intro hcon
    injection hcon with hcon
    exact WEXITSTATUS_ne_neg_one _ hcon
  refine ⟨⟨?_, ?_⟩, hnormal⟩
  · intro hret
    by_cases hf : env.forkRet < 0
    · exact Or.inl hf
    · by_cases hw : env.waitRet = -1
      · exact Or.inr (Or.inl hw)
      · cases hs : WIFEXITED env.status
        · exact Or.inr (Or.inr rfl)
        · exact absurd hret (hnormal (by omega) hw hs)
  · intro h
    by_cases hf : env.forkRet < 0
    · rw [execute_command_fork_failed command args env hf]
    · have hpos : 0 < env.forkRet := by omega
      by_cases hw : env.waitRet = -1
      · rw [execute_command_wait_failed command args env hpos hw]
      · rcases h with h | h | h
        · exact absurd h hf
        · exact absurd h hw
        · rw [execute_command_abnormal command args env hpos hw h]

theorem minus_one_iff_failure_or_abnormal_witness :
    (((execute_command "ls" ["ls"] ⟨4242, none, 4242, 512⟩).2 = Outcome.returned (-1) ↔
      ((4242 : Int) < 0 ∨ (4242 : Int) = -1 ∨ WIFEXITED 512 = false)) ∧
    ((0 : Int) < 4242 → (4242 : Int) ≠ -1 → WIFEXITED 512 = true →
      (execute_command "ls" ["ls"] ⟨4242, none, 4242, 512⟩).2 ≠ Outcome.returned (-1))) :=
  minus_one_iff_failure_or_abnormal "ls" ["ls"] ⟨4242, none, 4242, 512⟩ (by decide)

/-- C10: for every outcome of fork and waitpid and every status word, the
value returned in the parent is -1 or lies in 0..255; it is the field
(status >> 8) & 0xff exactly when fork and waitpid succeeded and the low seven
bits of the status are zero, and -1 on every other path. -/
theorem parent_result_range (command : String) (args : List String)
    (env : Env) (hparent : env.forkRet ≠ 0) :
    ∃ v : Int, (execute_command command args env).2 = Outcome.returned v ∧
      (v = -1 ∨ (0 ≤ v ∧ v ≤ 255)) ∧
      v = (if 0 < env.forkRet ∧ env.waitRet ≠ -1 ∧ bits32 env.status &&& 0x7f = 0
            then (((bits32 env.status >>> 8) &&& 0xff : Nat) : Int) else -1) := by
  by_cases hf : env.forkRet < 0
  · refine ⟨-1, ?_, Or.inl rfl, ?_⟩
    · rw [execute_command_fork_failed command args env hf]
    · have : ¬ 0 < env.forkRet := by omega
      simp [this]
  · have hpos : 0 < env.forkRet := by omega
    by_cases hw : env.waitRet = -1
    · refine ⟨-1, ?_, Or.inl rfl, ?_⟩
      · rw [execute_command_wait_failed command args env hpos hw]
      · simp [hw]
    · cases hs : WIFEXITED env.status
      · refine ⟨-1, ?_, Or.inl rfl, ?_⟩
        · rw [execute_command_abnormal command args env hpos hw hs]
        · have hb : ¬ (bits32 env.status &&& 0x7f = 0) := by
            intro hz
            simp [WIFEXITED, hz] at hs
          simp [hb]
      · refine ⟨WEXITSTATUS env.status, ?_, Or.inr ⟨WEXITSTATUS_nonneg _, WEXITSTATUS_le _⟩, ?_⟩
        · rw [execute_command_normal_exit command args env hpos hw hs]
        · have hb : bits32 env.status &&& 0x7f = 0 := by
            simpa [WIFEXITED] using hs
          simp [hpos, hw, hb, WEXITSTATUS]

theorem parent_result_range_witness :
    ∃ v : Int, (execute_command "ls" ["ls"] ⟨4242, none, 4242, 512⟩).2 = Outcome.returned v ∧
      (v = -1 ∨ (0 ≤ v ∧ v ≤ 255)) ∧
      v = (if (0 : Int) < 4242 ∧ (4242 : Int) ≠ -1 ∧ bits32 512 &&& 0x7f = 0
            then (((bits32 512 >>> 8) &&& 0xff : Nat) : Int) else -1) :=
  parent_result_range "ls" ["ls"] ⟨4242, none, 4242, 512⟩ (by decide)

/-! ## System calls made by one call -/

/-- C6: every call makes exactly one fork attempt, on every path, and never
retries; when fork fails the call returns at once, without exec or waitpid. -/
theorem one_fork_attempt_per_call (command : String) (args : List String) (env : Env) :
    fork_count (execute_command command args env).1 = 1 ∧
    (execute_command command args env).1.head? = some Event.fork ∧
    (env.forkRet < 0 →
      execute_command command args env =
        ([Event.fork, Event.perror "System Error: fork failed"], Outcome.returned (-1)) ∧
      execvp_calls (execute_command command args env).1 = [] ∧
      waitpid_calls (execute_command command args env).1 = []) := by
  refine ⟨?_, ?_, ?_⟩
  · unfold execute_command
    simp only
    split_ifs <;> try (simp [fork_count])
    split
    · simp [fork_count]
    · split_ifs <;> simp [fork_count]
  · unfold execute_command
    simp only
    split_ifs <;> try rfl
    split
    · rfl
    · split_ifs <;> rfl
  · intro hf
    rw [execute_command_fork_failed command args env hf]
    exact ⟨rfl, rfl, rfl⟩

theorem one_fork_attempt_per_call_witness :
    fork_count (execute_command "ls" ["ls"] ⟨-1, none, 0, 0⟩).1 = 1 ∧
    execute_command "ls" ["ls"] ⟨-1, none, 0, 0⟩ =
      ([Event.fork, Event.perror "System Error: fork failed"], Outcome.returned (-1)) ∧
    execvp_calls (execute_command "ls" ["ls"] ⟨-1, none, 0, 0⟩).1 = [] ∧
    waitpid_calls (execute_command "ls" ["ls"] ⟨-1, none, 0, 0⟩).1 = [] :=
  ⟨(one_fork_attempt_per_call "ls" ["ls"] ⟨-1, none, 0, 0⟩).1,
   (one_fork_attempt_per_call "ls" ["ls"] ⟨-1, none, 0, 0⟩).2.2 (by decide)⟩

/-- C7: on every parent path where fork succeeded, the call makes exactly one
waitpid call before it returns, on exactly the pid that fork returned. -/
theorem waits_once_for_own_child (command : String) (args : List String) (env : Env)
    (hfork : 0 < env.forkRet) :
    waitpid_calls (execute_command command args env).1 = [(env.forkRet, 0)] ∧
    ∃ v : Int, (execute_command command args env).2 = Outcome.returned v := by
  by_cases hw : env.waitRet = -1
  · rw [execute_command_wait_failed command args env hfork hw]
    exact ⟨rfl, -1, rfl⟩
  · cases hs : WIFEXITED env.status
    · rw [execute_command_abnormal command args env hfork hw hs]
      exact ⟨rfl, -1, rfl⟩
    · rw [execute_command_normal_exit command args env hfork hw hs]
      exact ⟨rfl, _, rfl⟩

theorem waits_once_for_own_child_witness :
    waitpid_calls (execute_command "ls" ["ls"] ⟨4242, none, 4242, 512⟩).1 = [(4242, 0)] ∧
    ∃ v : Int, (execute_command "ls" ["ls"] ⟨4242, none, 4242, 512⟩).2 = Outcome.returned v :=
  waits_once_for_own_child "ls" ["ls"] ⟨4242, none, 4242, 512⟩ (by decide)

/-- C8: the parent writes to standard error on exactly the two failure paths
(fork failed, waitpid failed), one message each, the message being the last
thing done before -1 is returned; on the normal-exit and abnormal-termination
paths the parent writes nothing to standard error. -/
theorem parent_stderr_only_on_syscall_failure (command : String) (args : List String)
    (env : Env) :
    (env.forkRet < 0 →
      stderr_messages (execute_command command args env).1 = ["System Error: fork failed"] ∧
      (execute_command command args env).1.getLast? =
        some (Event.perror "System Error: fork failed") ∧
      (execute_command command args env).2 = Outcome.returned (-1)) ∧
    (0 < env.forkRet → env.waitRet = -1 →
      stderr_messages (execute_command command args env).1 =
        ["System Error: waitpid failed"] ∧
      (execute_command command args env).1.getLast? =
        some (Event.perror "System Error: waitpid failed") ∧
      (execute_command command args env).2 = Outcome.returned (-1)) ∧
    (0 < env.forkRet → env.waitRet ≠ -1 →
      stderr_messages (execute_command command args env).1 = []) := by
  refine ⟨?_, ?_, ?_⟩
  · intro hf
    rw [execute_command_fork_failed command args env hf]
    exact ⟨rfl, rfl, rfl⟩
  · intro hf hw
    rw [execute_command_wait_failed command args env hf hw]
    exact ⟨rfl, rfl, rfl⟩
  · intro hf hw
    cases hs : WIFEXITED env.status
    · rw [execute_command_abnormal command args env hf hw hs]
      rfl
    · rw [execute_command_normal_exit command args env hf hw hs]
      rfl

theorem parent_stderr_only_on_syscall_failure_witness :
    (stderr_messages (execute_command "ls" ["ls"] ⟨-1, none, 0, 0⟩).1 =
        ["System Error: fork failed"] ∧
      (execute_command "ls" ["ls"] ⟨-1, none, 0, 0⟩).1.getLast? =
        some (Event.perror "System Error: fork failed") ∧
      (execute_command "ls" ["ls"] ⟨-1, none, 0, 0⟩).2 = Outcome.returned (-1)) ∧
    (stderr_messages (execute_command "ls" ["ls"] ⟨4242, none, -1, 0⟩).1 =
        ["System Error: waitpid failed"] ∧
      (execute_command "ls" ["ls"] ⟨4242, none, -1, 0⟩).1.getLast? =
        some (Event.perror "System Error: waitpid failed") ∧
      (execute_command "ls" ["ls"] ⟨4242, none, -1, 0⟩).2 = Outcome.returned (-1)) ∧
    stderr_messages (execute_command "ls" ["ls"] ⟨4242, none, 4242, 9⟩).1 = [] :=
  ⟨(parent_stderr_only_on_syscall_failure "ls" ["ls"] ⟨-1, none, 0, 0⟩).1 (by decide),
   (parent_stderr_only_on_syscall_failure "ls" ["ls"] ⟨4242, none, -1, 0⟩).2.1
     (by decide) (by decide),
   (parent_stderr_only_on_syscall_failure "ls" ["ls"] ⟨4242, none, 4242, 9⟩).2.2
     (by decide) (by decide)⟩

/-! ## Both processes -/

theorem child_side_exec_failed (command : String) (args : List String) (r : Run)
    (he : r.execFails = true) :
    child_side command args r =
      ([Event.fork, Event.execvp command args, Event.perror "Execution Error",
        Event.exit 1], Outcome.exited 1) := by
  unfold child_side
  rw [execute_command_exec_failed command args _ rfl (by simp [he])]

theorem child_side_exec_ok (command : String) (args : List String) (r : Run)
    (he : r.execFails = false) :
    child_side command args r =
      ([Event.fork, Event.execvp command args], Outcome.replaced) := by
  unfold child_side
  rw [execute_command_exec_ok command args _ rfl (by simp [he])]

theorem child_end_exec_failed (command : String) (args : List String) (r : Run)
    (he : r.execFails = true) :
    child_end command args r = some (ChildEnd.exits 1) := by
  simp [child_end, child_side_exec_failed command args r he]

theorem child_end_exec_ok (command : String) (args : List String) (r : Run)
    (he : r.execFails = false) :
    child_end command args r = some r.target := by
  simp [child_end, child_side_exec_ok command args r he]

theorem parent_result_fork_failed (command : String) (args : List String) (r : Run)
    (hf : r.forkRet < 0) : parent_result command args r = some (-1) := by
  simp [parent_result, parent_side, hf, execute_command_fork_failed]

theorem parent_side_of_child_end (command : String) (args : List String) (r : Run)
    (e : ChildEnd) (hf : 0 < r.forkRet) (he : child_end command args r = some e) :
    parent_side command args r =
      some (execute_command command args ⟨r.forkRet, none, r.waitRet, wait_status e⟩) := by
  have h1 : ¬ r.forkRet < 0 := by omega
  have h2 : r.forkRet ≠ 0 := by omega
  simp [parent_side, h1, h2, he]

theorem child_end_total (command : String) (args : List String) (r : Run) :
    ∃ e, child_end command args r = some e := by
  cases he : r.execFails
  · exact ⟨_, child_end_exec_ok command args r he⟩
  · exact ⟨_, child_end_exec_failed command args r he⟩

theorem parent_result_wait_failed (command : String) (args : List String) (r : Run)
    (hf : 0 < r.forkRet) (hw : r.waitRet = -1) :
    parent_result command args r = some (-1) := by
  obtain ⟨e, he⟩ := child_end_total command args r
  have henv : (⟨r.forkRet, none, r.waitRet, wait_status e⟩ : Env).waitRet = -1 := hw
  simp only [parent_result, parent_side_of_child_end command args r e hf he,
    execute_command_wait_failed command args _ hf henv]

theorem parent_side_exec_failed (command : String) (args : List String) (r : Run)
    (hf : 0 < r.forkRet) (hw : r.waitRet ≠ -1) (he : r.execFails = true) :
    parent_side command args r =
      some ([Event.fork, Event.waitpid r.forkRet 0], Outcome.returned 1) := by
  rw [parent_side_of_child_end command args r _ hf (child_end_exec_failed command args r he)]
  rw [execute_command_normal_exit command args _ hf hw (WIFEXITED_wait_status_exits 1)]
  have h1 : WEXITSTATUS (wait_status (ChildEnd.exits 1)) = 1 := by decide
  simp only [h1]

theorem parent_result_exec_failed (command : String) (args : List String) (r : Run)
    (hf : 0 < r.forkRet) (hw : r.waitRet ≠ -1) (he : r.execFails = true) :
    parent_result command args r = some 1 := by
  simp only [parent_result, parent_side_exec_failed command args r hf hw he]

theorem parent_result_target_exits (command : String) (args : List String) (r : Run)
    (code : Int) (hf : 0 < r.forkRet) (hw : r.waitRet ≠ -1) (he : r.execFails = false)
    (ht : r.target = ChildEnd.exits code) :
    parent_result command args r = some (code % 256) := by
  have hce := child_end_exec_ok command args r he
  rw [ht] at hce
  simp only [parent_result, parent_side_of_child_end command args r _ hf hce]
  rw [execute_command_normal_exit command args _ hf hw (WIFEXITED_wait_status_exits code)]
  simp only [WEXITSTATUS_wait_status_exits]

/-- C9, as stated, fails: execvp fails in the child for the empty command, the
child reports the failure and terminates with exit status 1, yet the parent's
call does not return 1: its waitpid fails and it returns -1. -/
theorem exec_failure_parent_result_not_always_one :
    child_side "" [""] ⟨4242, true, ChildEnd.exits 0, -1⟩ =
      ([Event.fork, Event.execvp "" [""], Event.perror "Execution Error",
        Event.exit 1], Outcome.exited 1) ∧
    parent_result "" [""] ⟨4242, true, ChildEnd.exits 0, -1⟩ = some (-1) ∧
    parent_result "" [""] ⟨4242, true, ChildEnd.exits 0, -1⟩ ≠ some 1 := by
  decide

/-- C9, amended: in the child, for every command (the empty string included)
for which execvp fails, the child first reports the failure on standard
error, then terminates with exit status 1 and never returns to the caller;
consequently the parent's call returns 1 when its waitpid succeeds, and -1
when its waitpid fails. -/
theorem exec_failure_child_exits_one (command : String) (args : List String) (r : Run)
    (hexec : r.execFails = true) :
    child_side command args r =
      ([Event.fork, Event.execvp command args, Event.perror "Execution Error",
        Event.exit 1], Outcome.exited 1) ∧
    (0 < r.forkRet → r.waitRet ≠ -1 →
      parent_side command args r =
        some ([Event.fork, Event.waitpid r.forkRet 0], Outcome.returned 1)) ∧
    (0 < r.forkRet → r.waitRet = -1 →
      parent_side command args r =
        some ([Event.fork, Event.waitpid r.forkRet 0,
          Event.perror "System Error: waitpid failed"], Outcome.returned (-1))) := by
  refine ⟨child_side_exec_failed command args r hexec,
    fun hf hw => parent_side_exec_failed command args r hf hw hexec, ?_⟩
  intro hf hw
  rw [parent_side_of_child_end command args r _ hf (child_end_exec_failed command args r hexec)]
  rw [execute_command_wait_failed command args _ hf hw]

theorem exec_failure_child_exits_one_witness :
    child_side "" [""] ⟨4242, true, ChildEnd.exits 0, 4242⟩ =
      ([Event.fork, Event.execvp "" [""], Event.perror "Execution Error",
        Event.exit 1], Outcome.exited 1) ∧
    parent_side "" [""] ⟨4242, true, ChildEnd.exits 0, 4242⟩ =
      some ([Event.fork, Event.waitpid 4242 0], Outcome.returned 1) ∧
    parent_side "" [""] ⟨4242, true, ChildEnd.exits 0, -1⟩ =
      some ([Event.fork, Event.waitpid 4242 0,
        Event.perror "System Error: waitpid failed"], Outcome.returned (-1)) :=
  ⟨(exec_failure_child_exits_one "" [""] ⟨4242, true, ChildEnd.exits 0, 4242⟩ rfl).1,
   (exec_failure_child_exits_one "" [""] ⟨4242, true, ChildEnd.exits 0, 4242⟩ rfl).2.1
     (by decide) (by decide),
   (exec_failure_child_exits_one "" [""] ⟨4242, true, ChildEnd.exits 0, -1⟩ rfl).2.2
     (by decide) (by decide)⟩

/-- C3, as stated, fails: for the nonexistent executable
"definitely_not_a_real_binary_xyz" (exec fails in the child, fork and waitpid
succeed) the parent's call returns 1, not the sentinel -1. -/
theorem nonexistent_executable_does_not_return_sentinel :
    parent_result "definitely_not_a_real_binary_xyz" ["definitely_not_a_real_binary_xyz"]
        ⟨4242, true, ChildEnd.exits 0, 4242⟩ = some 1 ∧
    parent_result "definitely_not_a_real_binary_xyz" ["definitely_not_a_real_binary_xyz"]
        ⟨4242, true, ChildEnd.exits 0, 4242⟩ ≠ some (-1) := by
  decide

/-- C3, amended: for every command whose executable does not exist (exec
fails in the child), when fork and waitpid succeed the parent's call returns
1, the exit status with which the child terminates after the failed exec. -/
theorem nonexistent_executable_returns_one (command : String) (args : List String)
    (r : Run) (hfork : 0 < r.forkRet) (hwait : r.waitRet ≠ -1)
    (hexec : r.execFails = true) :
    parent_result command args r = some 1 :=
  parent_result_exec_failed command args r hfork hwait hexec

theorem nonexistent_executable_returns_one_witness :
    parent_result "definitely_not_a_real_binary_xyz" ["definitely_not_a_real_binary_xyz"]
        ⟨4242, true, ChildEnd.exits 0, 4242⟩ = some 1 :=
  nonexistent_executable_returns_one "definitely_not_a_real_binary_xyz"
    ["definitely_not_a_real_binary_xyz"] ⟨4242, true, ChildEnd.exits 0, 4242⟩
    (by decide) (by decide) rfl

/-! ## Telling the outcomes apart -/

theorem category_systemError_result (command : String) (args : List String) (r : Run)
    (h : category r = some Category.systemError) :
    parent_result command args r = some (-1) := by
  unfold category at h
  by_cases hf : r.forkRet < 0
  · exact parent_result_fork_failed command args r hf
  · by_cases h0 : r.forkRet = 0
    · simp [hf, h0] at h
    · by_cases hw : r.waitRet = -1
      · exact parent_result_wait_failed command args r (by omega) hw
      · exfalso
        rw [if_neg hf, if_neg h0, if_neg hw] at h
        cases he : r.execFails <;> cases ht : r.target <;> simp [he, ht] at h

theorem category_launchFailure_result (command : String) (args : List String) (r : Run)
    (h : category r = some Category.launchFailure) :
    parent_result command args r = some 1 := by
  unfold category at h
  by_cases hf : r.forkRet < 0
  · simp [hf] at h
  · by_cases h0 : r.forkRet = 0
    · simp [hf, h0] at h
    · by_cases hw : r.waitRet = -1
      · simp [hf, h0, hw] at h
      · rw [if_neg hf, if_neg h0, if_neg hw] at h
        cases he : r.execFails
        · exfalso
          cases ht : r.target <;> simp [he, ht] at h
        · exact parent_result_exec_failed command args r (by omega) hw he

theorem category_commandFailed_result (command : String) (args : List String) (r : Run)
    (h : category r = some Category.commandFailed) :
    ∃ N : Int, 1 ≤ N ∧ N ≤ 255 ∧ parent_result command args r = some N := by
  unfold category at h
  by_cases hf : r.forkRet < 0
  · simp [hf] at h
  · by_cases h0 : r.forkRet = 0
    · simp [hf, h0] at h
    · by_cases hw : r.waitRet = -1
      · simp [hf, h0, hw] at h
      · rw [if_neg hf, if_neg h0, if_neg hw] at h
        cases he : r.execFails
        · rw [he] at h
          simp only [Bool.false_eq_true, if_false] at h
          cases ht : r.target with
          | exits code =>
            rw [ht] at h
            simp only at h
            by_cases hc : code % 256 ≠ 0
            · refine ⟨code % 256, by omega, by omega, ?_⟩
              exact parent_result_target_exits command args r code (by omega) hw he ht
            · rw [if_neg hc] at h
              exact absurd h (by simp)
          | killed sig core =>
            rw [ht] at h
            exact absurd h (by simp)
        · rw [he] at h
          simp at h

/-- C4, as stated, fails: a call whose command could not be launched and a
call whose command ran and exited with code 1 fall in different outcomes and
return the same value, 1. -/
theorem launch_failure_and_exit_one_coincide :
    category ⟨4242, true, ChildEnd.exits 0, 4242⟩ = some Category.launchFailure ∧
    category ⟨4243, false, ChildEnd.exits 1, 4243⟩ = some Category.commandFailed ∧
    parent_result "definitely_not_a_real_binary_xyz" ["definitely_not_a_real_binary_xyz"]
        ⟨4242, true, ChildEnd.exits 0, 4242⟩ =
      parent_result "false" ["false"] ⟨4243, false, ChildEnd.exits 1, 4243⟩ := by
  decide

/-- C4, amended: the returned value separates "system error" (fork failed or
waitpid failed: -1) from "command ran but failed" (the exit code, in 1..255)
and from "command could not be launched" (1): two calls in different outcomes
return the same value only when neither is a system error, and the value is
then 1. -/
theorem system_error_is_distinguished (command1 command2 : String)
    (args1 args2 : List String) (r1 r2 : Run) (c1 c2 : Category)
    (h1 : category r1 = some c1) (h2 : category r2 = some c2) (hne : c1 ≠ c2) :
    (c1 = Category.systemError → parent_result command1 args1 r1 = some (-1)) ∧
    (c1 = Category.launchFailure → parent_result command1 args1 r1 = some 1) ∧
    (c1 = Category.commandFailed →
      ∃ N : Int, 1 ≤ N ∧ N ≤ 255 ∧ parent_result command1 args1 r1 = some N) ∧
    ((c1 = Category.systemError ∨ c2 = Category.systemError) →
      parent_result command1 args1 r1 ≠ parent_result command2 args2 r2) ∧
    (parent_result command1 args1 r1 = parent_result command2 args2 r2 →
      parent_result command1 args1 r1 = some 1) := by
  have key : ∀ (command : String) (args : List String) (r : Run) (c : Category),
      category r = some c →
      (c = Category.systemError ∧ parent_result command args r = some (-1)) ∨
      (c = Category.launchFailure ∧ parent_result command args r = some 1) ∨
      (c = Category.commandFailed ∧
        ∃ N : Int, 1 ≤ N ∧ N ≤ 255 ∧ parent_result command args r = some N) := by
    intro command args r c h
    cases c
    · exact Or.inl ⟨rfl, category_systemError_result command args r h⟩
    · exact Or.inr (Or.inr ⟨rfl, category_commandFailed_result command args r h⟩)
    · exact Or.inr (Or.inl ⟨rfl, category_launchFailure_result command args r h⟩)
  have k1 := key command1 args1 r1 c1 h1
  have k2 := key command2 args2 r2 c2 h2
  refine ⟨?_, ?_, ?_, ?_, ?_⟩
  · intro hc; subst hc; exact category_systemError_result command1 args1 r1 h1
  · intro hc; subst hc; exact category_launchFailure_result command1 args1 r1 h1
  · intro hc; subst hc; exact category_commandFailed_result command1 args1 r1 h1
  · intro hsys heq
    rcases k1 with ⟨e1, v1⟩ | ⟨e1, v1⟩ | ⟨e1, N1, a1, b1, v1⟩ <;>
    rcases k2 with ⟨e2, v2⟩ | ⟨e2, v2⟩ | ⟨e2, N2, a2, b2, v2⟩ <;>
    rw [v1, v2] at heq <;> subst e1 <;> subst e2 <;>
    simp at hne hsys heq <;> omega
  · intro heq
    rcases k1 with ⟨e1, v1⟩ | ⟨e1, v1⟩ | ⟨e1, N1, a1, b1, v1⟩ <;>
    rcases k2 with ⟨e2, v2⟩ | ⟨e2, v2⟩ | ⟨e2, N2, a2, b2, v2⟩ <;>
    rw [v1, v2] at heq <;> subst e1 <;> subst e2 <;>
    simp at hne heq <;> first | exact v1 | omega | (rw [v1, heq])

theorem system_error_is_distinguished_witness :
    parent_result "definitely_not_a_real_binary_xyz" ["definitely_not_a_real_binary_xyz"]
        ⟨4242, true, ChildEnd.exits 0, 4242⟩ = some 1 ∧
    parent_result "definitely_not_a_real_binary_xyz" ["definitely_not_a_real_binary_xyz"]
        ⟨4242, true, ChildEnd.exits 0, 4242⟩ ≠
      parent_result "ls" ["ls"] ⟨-1, false, ChildEnd.exits 0, 0⟩ :=
  ⟨(system_error_is_distinguished "definitely_not_a_real_binary_xyz" "ls"
      ["definitely_not_a_real_binary_xyz"] ["ls"]
      ⟨4242, true, ChildEnd.exits 0, 4242⟩ ⟨-1, false, ChildEnd.exits 0, 0⟩
      Category.launchFailure Category.systemError
      (by decide) (by decide) (by decide)).2.1 rfl,
   (system_error_is_distinguished "definitely_not_a_real_binary_xyz" "ls"
      ["definitely_not_a_real_binary_xyz"] ["ls"]
      ⟨4242, true, ChildEnd.exits 0, 4242⟩ ⟨-1, false, ChildEnd.exits 0, 0⟩
      Category.launchFailure Category.systemError
      (by decide) (by decide) (by decide)).2.2.2.1 (Or.inr rfl)⟩

end Executor
